import Mathlib

/-!
Shallow embedding of the semantics-descriptor and store-iterator core of the
JULEA client library (src/lib/jsemantics.c, src/lib/jstore-iterator.c),
together with theorems settling the specification's claims about it.

C pointers that may be NULL are modelled as `Option`; in-place mutation is
modelled by returning the updated object; calls into external collaborators
(operation cache, connection pool, MongoDB driver) are modelled by an
abstract environment plus an event trace recording the calls the code makes.
-/

/-- Modelled from the spec: the enumeration tags of `jsemantics.h` (the header
is not under src/); each dimension is a closed enumeration whose members are
listed in spec section 3, encoded as consecutive C enum constants. -/
def J_SEMANTICS_ATOMICITY_NONE : Int := 0

def J_SEMANTICS_ATOMICITY_OPERATION : Int := 1

def J_SEMANTICS_ATOMICITY_BATCH : Int := 2

def J_SEMANTICS_CONCURRENCY_NONE : Int := 0

def J_SEMANTICS_CONCURRENCY_NON_OVERLAPPING : Int := 1

def J_SEMANTICS_CONCURRENCY_OVERLAPPING : Int := 2

def J_SEMANTICS_CONSISTENCY_NONE : Int := 0

def J_SEMANTICS_CONSISTENCY_EVENTUAL : Int := 1

def J_SEMANTICS_CONSISTENCY_IMMEDIATE : Int := 2

def J_SEMANTICS_PERSISTENCY_NONE : Int := 0

def J_SEMANTICS_PERSISTENCY_EVENTUAL : Int := 1

def J_SEMANTICS_PERSISTENCY_IMMEDIATE : Int := 2

def J_SEMANTICS_SAFETY_NONE : Int := 0

def J_SEMANTICS_SAFETY_NETWORK : Int := 1

def J_SEMANTICS_SAFETY_STORAGE : Int := 2

def J_SEMANTICS_SECURITY_NONE : Int := 0

def J_SEMANTICS_SECURITY_STRICT : Int := 1

/-- Modelled from the spec: the dimension keys of `JSemanticsType` in
`jsemantics.h` (header not under src/), in the order the switch statements of
jsemantics.c enumerate them. -/
def J_SEMANTICS_ATOMICITY : Int := 0

def J_SEMANTICS_CONCURRENCY : Int := 1

def J_SEMANTICS_CONSISTENCY : Int := 2

def J_SEMANTICS_PERSISTENCY : Int := 3

def J_SEMANTICS_SAFETY : Int := 4

def J_SEMANTICS_SECURITY : Int := 5

/-- Modelled from the spec: the template tags of `JSemanticsTemplate` in
`jsemantics.h` (header not under src/). -/
def J_SEMANTICS_TEMPLATE_DEFAULT : Int := 0

def J_SEMANTICS_TEMPLATE_POSIX : Int := 1

def J_SEMANTICS_TEMPLATE_CHECKPOINT : Int := 2

/-- struct JSemantics of jsemantics.c: six gint dimension fields, an
immutability flag and a reference count. -/
structure JSemantics where
  atomicity : Int
  consistency : Int
  persistency : Int
  concurrency : Int
  safety : Int
  security : Int
  immutable : Bool
  ref_count : Int
deriving DecidableEq, Repr

/-- j_semantics_new (jsemantics.c:99-139): fills in the Default values, then
switches on the template; the Posix and Checkpoint cases overwrite all six
dimensions; an unknown template falls into `g_warn_if_reached()` (a non-fatal
diagnostic) and the default-initialized object is returned. -/
def j_semantics_new (template : Int) : JSemantics :=
  let semantics : JSemantics :=
    { atomicity := J_SEMANTICS_ATOMICITY_NONE
      concurrency := J_SEMANTICS_CONCURRENCY_OVERLAPPING
      consistency := J_SEMANTICS_CONSISTENCY_IMMEDIATE
      persistency := J_SEMANTICS_PERSISTENCY_EVENTUAL
      safety := J_SEMANTICS_SAFETY_NONE
      security := J_SEMANTICS_SECURITY_STRICT
      immutable := false
      ref_count := 1 }
  if template = J_SEMANTICS_TEMPLATE_DEFAULT then
    semantics
  else if template = J_SEMANTICS_TEMPLATE_POSIX then
    { semantics with
        atomicity := J_SEMANTICS_ATOMICITY_OPERATION
        concurrency := J_SEMANTICS_CONCURRENCY_OVERLAPPING
        consistency := J_SEMANTICS_CONSISTENCY_IMMEDIATE
        persistency := J_SEMANTICS_PERSISTENCY_EVENTUAL
        safety := J_SEMANTICS_SAFETY_NONE
        security := J_SEMANTICS_SECURITY_STRICT }
  else if template = J_SEMANTICS_TEMPLATE_CHECKPOINT then
    { semantics with
        atomicity := J_SEMANTICS_ATOMICITY_NONE
        concurrency := J_SEMANTICS_CONCURRENCY_NON_OVERLAPPING
        consistency := J_SEMANTICS_CONSISTENCY_EVENTUAL
        persistency := J_SEMANTICS_PERSISTENCY_EVENTUAL
        safety := J_SEMANTICS_SAFETY_NONE
        security := J_SEMANTICS_SECURITY_NONE }
  else
    semantics

/-- True exactly when j_semantics_new hits the `g_warn_if_reached()` default
branch of its switch, i.e. logs a runtime warning (execution continues). -/
def j_semantics_new_warned (template : Int) : Bool :=
  if template = J_SEMANTICS_TEMPLATE_DEFAULT then false
  else if template = J_SEMANTICS_TEMPLATE_POSIX then false
  else if template = J_SEMANTICS_TEMPLATE_CHECKPOINT then false
  else true

/-- j_semantics_ref (jsemantics.c:153-166): NULL guard returns NULL;
otherwise increments the reference count, sets the immutable flag, and
returns the same object. -/
def j_semantics_ref : Option JSemantics → Option JSemantics
  | none => none
  | some s => some { s with ref_count := s.ref_count + 1, immutable := true }

/-- j_semantics_unref (jsemantics.c:179-188): NULL guard does nothing;
otherwise atomically decrements the count and frees the object exactly when
the decremented count is zero (`g_atomic_int_dec_and_test`). The freed object
is modelled by `none`. -/
def j_semantics_unref : Option JSemantics → Option JSemantics
  | none => none
  | some s =>
      if s.ref_count - 1 = 0 then none
      else some { s with ref_count := s.ref_count - 1 }

/-- Body of j_semantics_set (jsemantics.c:205-234) after the NULL guard: the
`g_return_if_fail(!semantics->immutable)` guard makes the call a no-op on an
immutable object; otherwise the switch overwrites exactly the keyed
dimension, with `g_warn_if_reached()` (no change) on an unknown key. -/
def j_semantics_set_body (s : JSemantics) (key value : Int) : JSemantics :=
  if s.immutable then s
  else if key = J_SEMANTICS_ATOMICITY then { s with atomicity := value }
  else if key = J_SEMANTICS_CONCURRENCY then { s with concurrency := value }
  else if key = J_SEMANTICS_CONSISTENCY then { s with consistency := value }
  else if key = J_SEMANTICS_PERSISTENCY then { s with persistency := value }
  else if key = J_SEMANTICS_SAFETY then { s with safety := value }
  else if key = J_SEMANTICS_SECURITY then { s with security := value }
  else s

/-- j_semantics_set with its NULL guard. -/
def j_semantics_set (s : Option JSemantics) (key value : Int) : Option JSemantics :=
  s.map (fun t => j_semantics_set_body t key value)

/-- True exactly when a call to j_semantics_set trips one of its
`g_return_if_fail` precondition guards (NULL object or immutable object):
glib logs a critical diagnostic and the function returns without effect. -/
def j_semantics_set_precondition_failed : Option JSemantics → Bool
  | none => true
  | some s => s.immutable

/-- j_semantics_get (jsemantics.c:252-274): NULL guard returns -1; the switch
returns the keyed dimension, with `g_return_val_if_reached(-1)` on an unknown
key. -/
def j_semantics_get (s : Option JSemantics) (key : Int) : Int :=
  match s with
  | none => -1
  | some s =>
      if key = J_SEMANTICS_ATOMICITY then s.atomicity
      else if key = J_SEMANTICS_CONCURRENCY then s.concurrency
      else if key = J_SEMANTICS_CONSISTENCY then s.consistency
      else if key = J_SEMANTICS_PERSISTENCY then s.persistency
      else if key = J_SEMANTICS_SAFETY then s.safety
      else if key = J_SEMANTICS_SECURITY then s.security
      else -1

/-- strchr(token, '=') followed by value++ in j_semantics_parse: `none` when
the token has no '=', otherwise the characters after the first '='. -/
def afterFirstEq : List Char → Option (List Char)
  | [] => none
  | c :: rest => if c = '=' then some rest else afterFirstEq rest

/-- g_str_has_prefix, on character lists. -/
def hasPrefixL : List Char → List Char → Bool
  | [], _ => true
  | _ :: _, [] => false
  | p :: ps, c :: cs => p = c && hasPrefixL ps cs

/-- Splits a character list at every comma, keeping empty pieces. -/
def splitOnCommaAux : List Char → List Char → List String
  | [], acc => [String.mk acc.reverse]
  | c :: rest, acc =>
      if c = ',' then String.mk acc.reverse :: splitOnCommaAux rest []
      else splitOnCommaAux rest (c :: acc)

/-- g_strsplit(s, ",", 0): splitting the empty string yields no tokens;
otherwise splits at every comma. -/
def g_strsplit (s : String) : List String :=
  if s = "" then [] else splitOnCommaAux s.data []

/-- One iteration of the parsing loop of j_semantics_parse
(jsemantics.c:306-403): a token without '=' is skipped; otherwise the token
is matched against the `key=` prefixes in source order, the value (the text
after the first '=') against that dimension's recognized value names; any
unmatched case leaves the descriptor unchanged. -/
def j_semantics_parse_token (s : JSemantics) (tok : String) : JSemantics :=
  match afterFirstEq tok.data with
  | none => s
  | some valueL =>
      let value := String.mk valueL
      if hasPrefixL "atomicity=".data tok.data then
        if value = "batch" then
          j_semantics_set_body s J_SEMANTICS_ATOMICITY J_SEMANTICS_ATOMICITY_BATCH
        else if value = "operation" then
          j_semantics_set_body s J_SEMANTICS_ATOMICITY J_SEMANTICS_ATOMICITY_OPERATION
        else if value = "none" then
          j_semantics_set_body s J_SEMANTICS_ATOMICITY J_SEMANTICS_ATOMICITY_NONE
        else s
      else if hasPrefixL "concurrency=".data tok.data then
        if value = "overlapping" then
          j_semantics_set_body s J_SEMANTICS_CONCURRENCY J_SEMANTICS_CONCURRENCY_OVERLAPPING
        else if value = "non-overlapping" then
          j_semantics_set_body s J_SEMANTICS_CONCURRENCY J_SEMANTICS_CONCURRENCY_NON_OVERLAPPING
        else if value = "none" then
          j_semantics_set_body s J_SEMANTICS_CONCURRENCY J_SEMANTICS_CONCURRENCY_NONE
        else s
      else if hasPrefixL "consistency=".data tok.data then
        if value = "immediate" then
          j_semantics_set_body s J_SEMANTICS_CONSISTENCY J_SEMANTICS_CONSISTENCY_IMMEDIATE
        else if value = "eventual" then
          j_semantics_set_body s J_SEMANTICS_CONSISTENCY J_SEMANTICS_CONSISTENCY_EVENTUAL
        else if value = "none" then
          j_semantics_set_body s J_SEMANTICS_CONSISTENCY J_SEMANTICS_CONSISTENCY_NONE
        else s
      else if hasPrefixL "persistency=".data tok.data then
        if value = "immediate" then
          j_semantics_set_body s J_SEMANTICS_PERSISTENCY J_SEMANTICS_PERSISTENCY_IMMEDIATE
        else if value = "eventual" then
          j_semantics_set_body s J_SEMANTICS_PERSISTENCY J_SEMANTICS_PERSISTENCY_EVENTUAL
        else if value = "none" then
          j_semantics_set_body s J_SEMANTICS_PERSISTENCY J_SEMANTICS_PERSISTENCY_NONE
        else s
      else if hasPrefixL "safety=".data tok.data then
        if value = "storage" then
          j_semantics_set_body s J_SEMANTICS_SAFETY J_SEMANTICS_SAFETY_STORAGE
        else if value = "network" then
          j_semantics_set_body s J_SEMANTICS_SAFETY J_SEMANTICS_SAFETY_NETWORK
        else if value = "none" then
          j_semantics_set_body s J_SEMANTICS_SAFETY J_SEMANTICS_SAFETY_NONE
        else s
      else if hasPrefixL "security=".data tok.data then
        if value = "strict" then
          j_semantics_set_body s J_SEMANTICS_SECURITY J_SEMANTICS_SECURITY_STRICT
        else if value = "none" then
          j_semantics_set_body s J_SEMANTICS_SECURITY J_SEMANTICS_SECURITY_NONE
        else s
      else s

/-- j_semantics_parse (jsemantics.c:278-408): selects the template by exact
string comparison ("posix", "checkpoint", anything else Default; g_strcmp0
also accepts NULL), returns it unchanged when the override string is NULL,
and otherwise folds the parsing loop over the comma-split tokens. -/
def j_semantics_parse (template_str semantics_str : Option String) : JSemantics :=
  let semantics :=
    if template_str = some "posix" then
      j_semantics_new J_SEMANTICS_TEMPLATE_POSIX
    else if template_str = some "checkpoint" then
      j_semantics_new J_SEMANTICS_TEMPLATE_CHECKPOINT
    else
      j_semantics_new J_SEMANTICS_TEMPLATE_DEFAULT
  match semantics_str with
  | none => semantics
  | some str => (g_strsplit str).foldl j_semantics_parse_token semantics

/-- The characters of a token before its first '=': the `key` of a
`key=value` token. -/
def beforeFirstEq : List Char → List Char
  | [] => []
  | c :: rest => if c = '=' then [] else c :: beforeFirstEq rest

/-- Spec-side reading of one override token, following the words of spec
section 4.1: a token without a '=' is ignored; a token `key=value` is
matched case-sensitively against the six dimension names; a recognized key
with an unrecognized value is ignored; otherwise exactly the named dimension
is overwritten. Written for comparison with `j_semantics_parse_token`. -/
def overrideTokenSpec (s : JSemantics) (tok : String) : JSemantics :=
  if '=' ∈ tok.data then
    let key := String.mk (beforeFirstEq tok.data)
    let value := String.mk ((afterFirstEq tok.data).getD [])
    if key = "atomicity" then
      if value = "batch" then { s with atomicity := J_SEMANTICS_ATOMICITY_BATCH }
      else if value = "operation" then { s with atomicity := J_SEMANTICS_ATOMICITY_OPERATION }
      else if value = "none" then { s with atomicity := J_SEMANTICS_ATOMICITY_NONE }
      else s
    else if key = "concurrency" then
      if value = "overlapping" then { s with concurrency := J_SEMANTICS_CONCURRENCY_OVERLAPPING }
      else if value = "non-overlapping" then { s with concurrency := J_SEMANTICS_CONCURRENCY_NON_OVERLAPPING }
      else if value = "none" then { s with concurrency := J_SEMANTICS_CONCURRENCY_NONE }
      else s
    else if key = "consistency" then
      if value = "immediate" then { s with consistency := J_SEMANTICS_CONSISTENCY_IMMEDIATE }
      else if value = "eventual" then { s with consistency := J_SEMANTICS_CONSISTENCY_EVENTUAL }
      else if value = "none" then { s with consistency := J_SEMANTICS_CONSISTENCY_NONE }
      else s
    else if key = "persistency" then
      if value = "immediate" then { s with persistency := J_SEMANTICS_PERSISTENCY_IMMEDIATE }
      else if value = "eventual" then { s with persistency := J_SEMANTICS_PERSISTENCY_EVENTUAL }
      else if value = "none" then { s with persistency := J_SEMANTICS_PERSISTENCY_NONE }
      else s
    else if key = "safety" then
      if value = "storage" then { s with safety := J_SEMANTICS_SAFETY_STORAGE }
      else if value = "network" then { s with safety := J_SEMANTICS_SAFETY_NETWORK }
      else if value = "none" then { s with safety := J_SEMANTICS_SAFETY_NONE }
      else s
    else if key = "security" then
      if value = "strict" then { s with security := J_SEMANTICS_SECURITY_STRICT }
      else if value = "none" then { s with security := J_SEMANTICS_SECURITY_NONE }
      else s
    else s
  else s

/-- Spec-side reading of the whole of `parse`, following the words of spec
section 4.1: template selected by name ("posix", "checkpoint", anything else
Default), an absent override string leaves the template descriptor
unchanged, and otherwise the comma-split tokens are applied strictly left to
right. Written for comparison with `j_semantics_parse`. -/
def j_semantics_parse_spec (template_str semantics_str : Option String) : JSemantics :=
  let semantics :=
    if template_str = some "posix" then
      j_semantics_new J_SEMANTICS_TEMPLATE_POSIX
    else if template_str = some "checkpoint" then
      j_semantics_new J_SEMANTICS_TEMPLATE_CHECKPOINT
    else
      j_semantics_new J_SEMANTICS_TEMPLATE_DEFAULT
  match semantics_str with
  | none => semantics
  | some str => (g_strsplit str).foldl overrideTokenSpec semantics

/-- Modelled from the spec: the Store object (jstore.c is not under src/).
The iterator couples to it only by taking and dropping a reference; its
configured semantics descriptor is carried so that claims about "regardless
of the store's configured semantics" can be stated. -/
structure JStore where
  semantics : JSemantics
deriving DecidableEq, Repr

/-- The calls jstore-iterator.c makes into its external collaborators
(operation cache, store refcount, connection pool, MongoDB driver), recorded
in program order. -/
inductive JEvent where
  | opCacheFlush : JEvent
  | storeRef : JEvent
  | connPoolPopMeta : Nat → JEvent
  | cursorOpen : JEvent
  | cursorAdvance : JEvent
  | cursorDestroy : JEvent
  | connPoolPushMeta : Nat → Option Nat → JEvent
  | storeUnref : JEvent
deriving DecidableEq, Repr

/-- Modelled from the spec: the results the external collaborators hand back
during iterator construction — the pooled connection returned by
j_connection_pool_pop_meta(0) and the cursor returned by mongo_find, either
of which may be NULL (pool exhaustion, backend unreachable). -/
structure IterEnv where
  pop_meta_result : Option Nat
  mongo_find_result : Option Nat
deriving DecidableEq, Repr

/-- struct JStoreIterator of jstore-iterator.c: the pooled connection, the
referenced store, and the MongoDB cursor. -/
structure JStoreIterator where
  connection : Option Nat
  store : JStore
  cursor : Option Nat
deriving DecidableEq, Repr

/-- j_store_iterator_new (jstore-iterator.c:81-100): NULL guard returns NULL
having done nothing; otherwise unconditionally flushes the operation cache,
allocates the iterator, takes a store reference, pops a metadata connection
from pool slot 0, opens an unfiltered cursor via mongo_find — with no error
checking on any of these steps — and returns the iterator. -/
def j_store_iterator_new (store : Option JStore) (env : IterEnv) :
    Option JStoreIterator × List JEvent :=
  match store with
  | none => (none, [])
  | some st =>
      (some { connection := env.pop_meta_result, store := st,
              cursor := env.mongo_find_result },
       [JEvent.opCacheFlush, JEvent.storeRef, JEvent.connPoolPopMeta 0,
        JEvent.cursorOpen])

/-- j_store_iterator_free (jstore-iterator.c:109-120): NULL guard does
nothing; otherwise destroys the cursor, pushes the connection back to pool
slot 0, and drops the store reference, in that order. -/
def j_store_iterator_free (it : Option JStoreIterator) : List JEvent :=
  match it with
  | none => []
  | some it =>
      [JEvent.cursorDestroy, JEvent.connPoolPushMeta 0 it.connection,
       JEvent.storeUnref]

/-- j_store_iterator_next (jstore-iterator.c:134-140): NULL guard returns
FALSE having done nothing; otherwise advances the cursor, returning whether
mongo_cursor_next reported MONGO_OK (an outcome of the external cursor,
passed in as `advance_ok`). -/
def j_store_iterator_next (it : Option JStoreIterator) (advance_ok : Bool) :
    Bool × List JEvent :=
  match it with
  | none => (false, [])
  | some _ => (advance_ok, [JEvent.cursorAdvance])

/-- Modelled from the spec: a Collection materialized from the currently
positioned cursor record by j_collection_new_from_bson (jcollection.c is not
under src/). -/
structure JCollection where
  store : JStore
  record : Option Nat
deriving DecidableEq, Repr

/-- j_store_iterator_get (jstore-iterator.c:154-164): NULL guard returns
NULL; otherwise asks the collection factory to materialize the currently
positioned record into a new, independent Collection. -/
def j_store_iterator_get (it : Option JStoreIterator) : Option JCollection :=
  match it with
  | none => none
  | some it => some { store := it.store, record := it.cursor }

/-- A concrete store used to instantiate closed statements. -/
def sampleStore : JStore :=
  { semantics := j_semantics_new J_SEMANTICS_TEMPLATE_DEFAULT }

theorem afterFirstEq_eq_none_iff (t : List Char) :
    afterFirstEq t = none ↔ '=' ∉ t := by
  induction t with
  | nil => simp [afterFirstEq]
  | cons c cs ih =>
      by_cases hc : c = '='
      · subst hc; simp [afterFirstEq]
      · simp [afterFirstEq, hc, ih, Ne.symm hc]

theorem hasPrefixL_append_eq_iff (p t : List Char) (hp : '=' ∉ p) :
    hasPrefixL (p ++ ['=']) t = true ↔
      (beforeFirstEq t = p ∧ (afterFirstEq t).isSome = true) := by
  induction p generalizing t with
  | nil =>
      cases t with
      | nil => simp [hasPrefixL, beforeFirstEq, afterFirstEq]
      | cons c cs =>
          by_cases hc : c = '='
          · subst hc; simp [hasPrefixL, beforeFirstEq, afterFirstEq]
          · simp [hasPrefixL, beforeFirstEq, afterFirstEq, hc, Ne.symm hc]
  | cons a ps ih =>
      have ha : a ≠ '=' := fun e => hp (e ▸ List.mem_cons_self a ps)
      have hps : '=' ∉ ps := fun m => hp (List.mem_cons_of_mem a m)
      cases t with
      | nil => simp [hasPrefixL, beforeFirstEq, afterFirstEq]
      | cons c cs =>
          by_cases hc : c = '='
          · subst hc
            have : a ≠ '=' := ha
            simp [hasPrefixL, beforeFirstEq, afterFirstEq, this]
          · by_cases hac : a = c
            · subst hac
              simp [hasPrefixL, beforeFirstEq, afterFirstEq, hc, ih cs hps]
            · simp [hasPrefixL, beforeFirstEq, afterFirstEq, hc, hac, Ne.symm hac]

theorem hasPrefix_key_iff (key : String) (t : List Char) (hk : '=' ∉ key.data)
    (hsome : (afterFirstEq t).isSome = true) :
    hasPrefixL (key.data ++ ['=']) t = true ↔ String.mk (beforeFirstEq t) = key := by
  rw [hasPrefixL_append_eq_iff key.data t hk]
  constructor
  · rintro ⟨hb, _⟩
    rw [hb]
  · intro hb
    exact ⟨congrArg String.data hb, hsome⟩

theorem j_semantics_set_body_atomicity (s : JSemantics) (v : Int)
    (hs : s.immutable = false) :
    j_semantics_set_body s J_SEMANTICS_ATOMICITY v = { s with atomicity := v } := by
  simp [j_semantics_set_body, hs]

theorem j_semantics_set_body_concurrency (s : JSemantics) (v : Int)
    (hs : s.immutable = false) :
    j_semantics_set_body s J_SEMANTICS_CONCURRENCY v = { s with concurrency := v } := by
  simp [j_semantics_set_body, hs, J_SEMANTICS_ATOMICITY, J_SEMANTICS_CONCURRENCY]

theorem j_semantics_set_body_consistency (s : JSemantics) (v : Int)
    (hs : s.immutable = false) :
    j_semantics_set_body s J_SEMANTICS_CONSISTENCY v = { s with consistency := v } := by
  simp [j_semantics_set_body, hs, J_SEMANTICS_ATOMICITY, J_SEMANTICS_CONCURRENCY,
    J_SEMANTICS_CONSISTENCY]

theorem j_semantics_set_body_persistency (s : JSemantics) (v : Int)
    (hs : s.immutable = false) :
    j_semantics_set_body s J_SEMANTICS_PERSISTENCY v = { s with persistency := v } := by
  simp [j_semantics_set_body, hs, J_SEMANTICS_ATOMICITY, J_SEMANTICS_CONCURRENCY,
    J_SEMANTICS_CONSISTENCY, J_SEMANTICS_PERSISTENCY]

theorem j_semantics_set_body_safety (s : JSemantics) (v : Int)
    (hs : s.immutable = false) :
    j_semantics_set_body s J_SEMANTICS_SAFETY v = { s with safety := v } := by
  simp [j_semantics_set_body, hs, J_SEMANTICS_ATOMICITY, J_SEMANTICS_CONCURRENCY,
    J_SEMANTICS_CONSISTENCY, J_SEMANTICS_PERSISTENCY, J_SEMANTICS_SAFETY]

theorem j_semantics_set_body_security (s : JSemantics) (v : Int)
    (hs : s.immutable = false) :
    j_semantics_set_body s J_SEMANTICS_SECURITY v = { s with security := v } := by
  simp [j_semantics_set_body, hs, J_SEMANTICS_ATOMICITY, J_SEMANTICS_CONCURRENCY,
    J_SEMANTICS_CONSISTENCY, J_SEMANTICS_PERSISTENCY, J_SEMANTICS_SAFETY,
    J_SEMANTICS_SECURITY]

theorem parse_token_eq_spec (s : JSemantics) (tok : String)
    (hs : s.immutable = false) :
    j_semantics_parse_token s tok = overrideTokenSpec s tok := by
  unfold j_semantics_parse_token overrideTokenSpec
  cases h : afterFirstEq tok.data with
  | none =>
      have hne : '=' ∉ tok.data := (afterFirstEq_eq_none_iff tok.data).mp h
      simp [hne]
  | some v =>
      have hmem : '=' ∈ tok.data := by
        by_contra hne
        rw [(afterFirstEq_eq_none_iff tok.data).mpr hne] at h
        exact Option.noConfusion h
      have hsome : (afterFirstEq tok.data).isSome = true := by rw [h]; rfl
      have b1 : hasPrefixL ("atomicity=").data tok.data = true ↔
          String.mk (beforeFirstEq tok.data) = "atomicity" := by
        rw [show ("atomicity=").data = ("atomicity").data ++ ['='] from by decide]
        exact hasPrefix_key_iff "atomicity" tok.data (by decide) hsome
      have b2 : hasPrefixL ("concurrency=").data tok.data = true ↔
          String.mk (beforeFirstEq tok.data) = "concurrency" := by
        rw [show ("concurrency=").data = ("concurrency").data ++ ['='] from by decide]
        exact hasPrefix_key_iff "concurrency" tok.data (by decide) hsome
      have b3 : hasPrefixL ("consistency=").data tok.data = true ↔
          String.mk (beforeFirstEq tok.data) = "consistency" := by
        rw [show ("consistency=").data = ("consistency").data ++ ['='] from by decide]
        exact hasPrefix_key_iff "consistency" tok.data (by decide) hsome
      have b4 : hasPrefixL ("persistency=").data tok.data = true ↔
          String.mk (beforeFirstEq tok.data) = "persistency" := by
        rw [show ("persistency=").data = ("persistency").data ++ ['='] from by decide]
        exact hasPrefix_key_iff "persistency" tok.data (by decide) hsome
      have b5 : hasPrefixL ("safety=").data tok.data = true ↔
          String.mk (beforeFirstEq tok.data) = "safety" := by
        rw [show ("safety=").data = ("safety").data ++ ['='] from by decide]
        exact hasPrefix_key_iff "safety" tok.data (by decide) hsome
      have b6 : hasPrefixL ("security=").data tok.data = true ↔
          String.mk (beforeFirstEq tok.data) = "security" := by
        rw [show ("security=").data = ("security").data ++ ['='] from by decide]
        exact hasPrefix_key_iff "security" tok.data (by decide) hsome
      by_cases k1 : String.mk (beforeFirstEq tok.data) = "atomicity"
      · simp [hmem, b1.mpr k1, k1, j_semantics_set_body_atomicity, hs]
      · have n1 : hasPrefixL ("atomicity=").data tok.data = false := by
          cases hb : hasPrefixL ("atomicity=").data tok.data
          · rfl
          · exact absurd (b1.mp hb) k1
        by_cases k2 : String.mk (beforeFirstEq tok.data) = "concurrency"
        · simp [hmem, n1, k1, b2.mpr k2, k2, j_semantics_set_body_concurrency, hs]
        · have n2 : hasPrefixL ("concurrency=").data tok.data = false := by
            cases hb : hasPrefixL ("concurrency=").data tok.data
            · rfl
            · exact absurd (b2.mp hb) k2
          by_cases k3 : String.mk (beforeFirstEq tok.data) = "consistency"
          · simp [hmem, n1, n2, k1, k2, b3.mpr k3, k3,
              j_semantics_set_body_consistency, hs]
          · have n3 : hasPrefixL ("consistency=").data tok.data = false := by
              cases hb : hasPrefixL ("consistency=").data tok.data
              · rfl
              · exact absurd (b3.mp hb) k3
            by_cases k4 : String.mk (beforeFirstEq tok.data) = "persistency"
            · simp [hmem, n1, n2, n3, k1, k2, k3, b4.mpr k4, k4,
                j_semantics_set_body_persistency, hs]
            · have n4 : hasPrefixL ("persistency=").data tok.data = false := by
                cases hb : hasPrefixL ("persistency=").data tok.data
                · rfl
                · exact absurd (b4.mp hb) k4
              by_cases k5 : String.mk (beforeFirstEq tok.data) = "safety"
              · simp [hmem, n1, n2, n3, n4, k1, k2, k3, k4, b5.mpr k5, k5,
                  j_semantics_set_body_safety, hs]
              · have n5 : hasPrefixL ("safety=").data tok.data = false := by
                  cases hb : hasPrefixL ("safety=").data tok.data
                  · rfl
                  · exact absurd (b5.mp hb) k5
                by_cases k6 : String.mk (beforeFirstEq tok.data) = "security"
                · simp [hmem, n1, n2, n3, n4, n5, k1, k2, k3, k4, k5,
                    b6.mpr k6, k6, j_semantics_set_body_security, hs]
                · have n6 : hasPrefixL ("security=").data tok.data = false := by
                    cases hb : hasPrefixL ("security=").data tok.data
                    · rfl
                    · exact absurd (b6.mp hb) k6
                  simp [hmem, n1, n2, n3, n4, n5, n6, k1, k2, k3, k4, k5, k6]

theorem j_semantics_set_body_flags (s : JSemantics) (k v : Int) :
    (j_semantics_set_body s k v).immutable = s.immutable ∧
    (j_semantics_set_body s k v).ref_count = s.ref_count := by
  unfold j_semantics_set_body
  split_ifs <;> exact ⟨rfl, rfl⟩

theorem parse_token_flags (s : JSemantics) (tok : String) :
    (j_semantics_parse_token s tok).immutable = s.immutable ∧
    (j_semantics_parse_token s tok).ref_count = s.ref_count := by
  unfold j_semantics_parse_token
  cases afterFirstEq tok.data with
  | none => exact ⟨rfl, rfl⟩
  | some v =>
      dsimp only
      split_ifs <;>
        first
          | exact ⟨rfl, rfl⟩
          | exact j_semantics_set_body_flags _ _ _

theorem foldl_parse_token_flags (l : List String) (s : JSemantics) :
    ((l.foldl j_semantics_parse_token s).immutable = s.immutable ∧
     (l.foldl j_semantics_parse_token s).ref_count = s.ref_count) := by
  induction l generalizing s with
  | nil => exact ⟨rfl, rfl⟩
  | cons tok l ih =>
      simp only [List.foldl_cons]
      obtain ⟨h1, h2⟩ := ih (j_semantics_parse_token s tok)
      obtain ⟨h3, h4⟩ := parse_token_flags s tok
      exact ⟨h1.trans h3, h2.trans h4⟩

theorem foldl_parse_token_eq_spec (l : List String) (s : JSemantics)
    (hs : s.immutable = false) :
    l.foldl j_semantics_parse_token s = l.foldl overrideTokenSpec s := by
  induction l generalizing s with
  | nil => rfl
  | cons tok l ih =>
      simp only [List.foldl_cons]
      rw [parse_token_eq_spec s tok hs]
      apply ih
      rw [← parse_token_eq_spec s tok hs, (parse_token_flags s tok).1]
      exact hs

/-- Claim C1: new(T) for T in {Default, Posix, Checkpoint} yields exactly the
six-dimension table of spec section 4.1 — Default = (atomicity None,
concurrency Overlapping, consistency Immediate, persistency Eventual, safety
None, security Strict); Posix differs from Default only in atomicity =
Operation; Checkpoint differs from Default in concurrency = NonOverlapping,
consistency = Eventual, security = None — and each returned descriptor has
ref_count = 1 and is mutable. -/
theorem claim_C1_template_table :
    j_semantics_new J_SEMANTICS_TEMPLATE_DEFAULT =
      { atomicity := J_SEMANTICS_ATOMICITY_NONE
        concurrency := J_SEMANTICS_CONCURRENCY_OVERLAPPING
        consistency := J_SEMANTICS_CONSISTENCY_IMMEDIATE
        persistency := J_SEMANTICS_PERSISTENCY_EVENTUAL
        safety := J_SEMANTICS_SAFETY_NONE
        security := J_SEMANTICS_SECURITY_STRICT
        immutable := false
        ref_count := 1 } ∧
    j_semantics_new J_SEMANTICS_TEMPLATE_POSIX =
      { j_semantics_new J_SEMANTICS_TEMPLATE_DEFAULT with
        atomicity := J_SEMANTICS_ATOMICITY_OPERATION } ∧
    j_semantics_new J_SEMANTICS_TEMPLATE_CHECKPOINT =
      { j_semantics_new J_SEMANTICS_TEMPLATE_DEFAULT with
        concurrency := J_SEMANTICS_CONCURRENCY_NON_OVERLAPPING
        consistency := J_SEMANTICS_CONSISTENCY_EVENTUAL
        security := J_SEMANTICS_SECURITY_NONE } ∧
    (j_semantics_new J_SEMANTICS_TEMPLATE_POSIX).ref_count = 1 ∧
    (j_semantics_new J_SEMANTICS_TEMPLATE_POSIX).immutable = false ∧
    (j_semantics_new J_SEMANTICS_TEMPLATE_CHECKPOINT).ref_count = 1 ∧
    (j_semantics_new J_SEMANTICS_TEMPLATE_CHECKPOINT).immutable = false := by
  decide

/-- Claim C5: parse applies the override grammar — split on ',', tokens
without '=' ignored, key matched case-sensitively against the six dimension
names, a recognized key with an unrecognized value left unchanged, tokens
applied strictly left to right so a repeated key's last valid value wins —
stated as the equality of `j_semantics_parse` with the spec-side
`j_semantics_parse_spec` on all inputs, together with the claim's two
concrete examples. -/
theorem claim_C5_override_grammar :
    (∀ template_str semantics_str : Option String,
        j_semantics_parse template_str semantics_str =
          j_semantics_parse_spec template_str semantics_str) ∧
    j_semantics_parse (some "posix") (some "atomicity=batch,safety=storage") =
      { j_semantics_new J_SEMANTICS_TEMPLATE_POSIX with
          atomicity := J_SEMANTICS_ATOMICITY_BATCH
          safety := J_SEMANTICS_SAFETY_STORAGE } ∧
    j_semantics_parse (some "default") (some "consistency=eventual,consistency=immediate") =
      { j_semantics_new J_SEMANTICS_TEMPLATE_DEFAULT with
          consistency := J_SEMANTICS_CONSISTENCY_IMMEDIATE } := by
  refine ⟨?_, by decide, by decide⟩
  intro t str
  cases str with
  | none => rfl
  | some str =>
      have hflag :
          (if t = some "posix" then j_semantics_new J_SEMANTICS_TEMPLATE_POSIX
           else if t = some "checkpoint" then j_semantics_new J_SEMANTICS_TEMPLATE_CHECKPOINT
           else j_semantics_new J_SEMANTICS_TEMPLATE_DEFAULT).immutable = false := by
        split_ifs <;> rfl
      exact foldl_parse_token_eq_spec (g_strsplit str) _ hflag

/-- Claim C6: parse selects the Posix template exactly for the name "posix",
Checkpoint exactly for "checkpoint", and Default for any other text (no
error); with an absent override string the template descriptor is returned
unchanged, so parse("bogus-template", null) equals new(Default) exactly; and
every descriptor parse returns is still mutable with ref_count 1. -/
theorem claim_C6_parse_template_selection :
    (∀ t : Option String,
        j_semantics_parse t none =
          (if t = some "posix" then j_semantics_new J_SEMANTICS_TEMPLATE_POSIX
           else if t = some "checkpoint" then j_semantics_new J_SEMANTICS_TEMPLATE_CHECKPOINT
           else j_semantics_new J_SEMANTICS_TEMPLATE_DEFAULT)) ∧
    j_semantics_parse (some "bogus-template") none =
      j_semantics_new J_SEMANTICS_TEMPLATE_DEFAULT ∧
    (∀ t s : Option String,
        (j_semantics_parse t s).immutable = false ∧
        (j_semantics_parse t s).ref_count = 1) := by
  have htmpl : ∀ t : Option String,
      (if t = some "posix" then j_semantics_new J_SEMANTICS_TEMPLATE_POSIX
       else if t = some "checkpoint" then j_semantics_new J_SEMANTICS_TEMPLATE_CHECKPOINT
       else j_semantics_new J_SEMANTICS_TEMPLATE_DEFAULT).immutable = false ∧
      (if t = some "posix" then j_semantics_new J_SEMANTICS_TEMPLATE_POSIX
       else if t = some "checkpoint" then j_semantics_new J_SEMANTICS_TEMPLATE_CHECKPOINT
       else j_semantics_new J_SEMANTICS_TEMPLATE_DEFAULT).ref_count = 1 := by
    intro t
    split_ifs <;> exact ⟨rfl, rfl⟩
  refine ⟨fun t => rfl, by decide, ?_⟩
  intro t s
  cases s with
  | none => exact htmpl t
  | some str =>
      obtain ⟨h1, h2⟩ := foldl_parse_token_flags (g_strsplit str)
        (if t = some "posix" then j_semantics_new J_SEMANTICS_TEMPLATE_POSIX
         else if t = some "checkpoint" then j_semantics_new J_SEMANTICS_TEMPLATE_CHECKPOINT
         else j_semantics_new J_SEMANTICS_TEMPLATE_DEFAULT)
      exact ⟨h1.trans (htmpl t).1, h2.trans (htmpl t).2⟩

/-- Claim C4: sharing freezes a descriptor — j_semantics_ref sets the
immutable flag — and on an immutable descriptor every set call trips its
precondition guard and leaves all six dimensions unchanged (so every get
after any sequence of set calls returns the value held at the moment of
sharing), while on a still-mutable descriptor set overwrites exactly the
named dimension and no other field. -/
theorem claim_C4_immutable_after_share :
    (∀ s : JSemantics,
        j_semantics_ref (some s) =
          some { s with ref_count := s.ref_count + 1, immutable := true }) ∧
    (∀ (s : JSemantics) (k v : Int), s.immutable = true →
        j_semantics_set_precondition_failed (some s) = true ∧
        j_semantics_set (some s) k v = some s) ∧
    (∀ (s : JSemantics) (ops : List (Int × Int)), s.immutable = true →
        ops.foldl (fun t p => j_semantics_set t p.1 p.2) (some s) = some s ∧
        ∀ k : Int,
          j_semantics_get (ops.foldl (fun t p => j_semantics_set t p.1 p.2) (some s)) k =
            j_semantics_get (some s) k) ∧
    (∀ (s : JSemantics) (v : Int), s.immutable = false →
        j_semantics_set (some s) J_SEMANTICS_ATOMICITY v = some { s with atomicity := v } ∧
        j_semantics_set (some s) J_SEMANTICS_CONCURRENCY v = some { s with concurrency := v } ∧
        j_semantics_set (some s) J_SEMANTICS_CONSISTENCY v = some { s with consistency := v } ∧
        j_semantics_set (some s) J_SEMANTICS_PERSISTENCY v = some { s with persistency := v } ∧
        j_semantics_set (some s) J_SEMANTICS_SAFETY v = some { s with safety := v } ∧
        j_semantics_set (some s) J_SEMANTICS_SECURITY v = some { s with security := v }) := by
  have hset : ∀ (s : JSemantics) (k v : Int), s.immutable = true →
      j_semantics_set (some s) k v = some s := by
    intro s k v h
    simp [j_semantics_set, j_semantics_set_body, h]
  have hfold : ∀ (ops : List (Int × Int)) (s : JSemantics), s.immutable = true →
      ops.foldl (fun t p => j_semantics_set t p.1 p.2) (some s) = some s := by
    intro ops
    induction ops with
    | nil => intro s _; rfl
    | cons p ops ih =>
        intro s h
        simp only [List.foldl_cons, hset s p.1 p.2 h]
        exact ih s h
  refine ⟨fun s => rfl, ?_, ?_, ?_⟩
  · intro s k v h
    exact ⟨h, hset s k v h⟩
  · intro s ops h
    refine ⟨hfold ops s h, ?_⟩
    intro k
    rw [hfold ops s h]
  · intro s v hs
    refine ⟨?_, ?_, ?_, ?_, ?_, ?_⟩
    · simp [j_semantics_set, j_semantics_set_body_atomicity, hs]
    · simp [j_semantics_set, j_semantics_set_body_concurrency, hs]
    · simp [j_semantics_set, j_semantics_set_body_consistency, hs]
    · simp [j_semantics_set, j_semantics_set_body_persistency, hs]
    · simp [j_semantics_set, j_semantics_set_body_safety, hs]
    · simp [j_semantics_set, j_semantics_set_body_security, hs]

/-- Witness for claim C4 at a concrete shared descriptor and a concrete
mutable one. -/
theorem claim_C4_immutable_after_share_witness :
    (({ j_semantics_new J_SEMANTICS_TEMPLATE_DEFAULT with
          immutable := true } : JSemantics).immutable = true ∧
      j_semantics_set
          (some { j_semantics_new J_SEMANTICS_TEMPLATE_DEFAULT with immutable := true })
          J_SEMANTICS_SAFETY J_SEMANTICS_SAFETY_STORAGE =
        some { j_semantics_new J_SEMANTICS_TEMPLATE_DEFAULT with immutable := true }) ∧
    ((j_semantics_new J_SEMANTICS_TEMPLATE_DEFAULT).immutable = false ∧
      j_semantics_set (some (j_semantics_new J_SEMANTICS_TEMPLATE_DEFAULT))
          J_SEMANTICS_SAFETY J_SEMANTICS_SAFETY_STORAGE =
        some { j_semantics_new J_SEMANTICS_TEMPLATE_DEFAULT with
                 safety := J_SEMANTICS_SAFETY_STORAGE }) :=
  ⟨⟨by decide,
    (claim_C4_immutable_after_share.2.1
        { j_semantics_new J_SEMANTICS_TEMPLATE_DEFAULT with immutable := true }
        J_SEMANTICS_SAFETY J_SEMANTICS_SAFETY_STORAGE (by decide)).2⟩,
   ⟨by decide,
    (claim_C4_immutable_after_share.2.2.2
        (j_semantics_new J_SEMANTICS_TEMPLATE_DEFAULT)
        J_SEMANTICS_SAFETY_STORAGE (by decide)).2.2.2.2.1⟩⟩

theorem ref_iterate_count (s : JSemantics) (N : ℕ) :
    ∃ s' : JSemantics, j_semantics_ref^[N] (some s) = some s' ∧
      s'.ref_count = s.ref_count + N := by
  induction N with
  | zero => exact ⟨s, rfl, by simp⟩
  | succ N ih =>
      obtain ⟨s', h1, h2⟩ := ih
      refine ⟨{ s' with ref_count := s'.ref_count + 1, immutable := true },
        ?_, ?_⟩
      · rw [Function.iterate_succ_apply', h1]
        rfl
      · simp [h2]
        ring

theorem unref_iterate_lt (k : ℕ) (s : JSemantics) (hk : (k : Int) < s.ref_count) :
    j_semantics_unref^[k] (some s) =
      some { s with ref_count := s.ref_count - k } := by
  induction k generalizing s with
  | zero =>
      simp
  | succ k ih =>
      rw [Function.iterate_succ_apply]
      have h1 : ¬ (s.ref_count - 1 = 0) := by
        push_cast at hk
        omega
      have h2 : j_semantics_unref (some s) =
          some { s with ref_count := s.ref_count - 1 } := by
        simp [j_semantics_unref, h1]
      rw [h2, ih]
      · have h3 : s.ref_count - 1 - (k : Int) = s.ref_count - ((k : ℕ) + 1 : ℕ) := by
          push_cast
          ring
        simp [h3]
      · push_cast at hk ⊢
        omega

/-- Claim C7: release decrements the reference count and frees exactly when
the count reaches zero — never on a release leaving it positive, necessarily
on the one bringing it to zero; hence for a descriptor created once and
shared N times, the free happens on exactly the (N+1)th release and not
before. -/
theorem claim_C7_release_balance :
    (∀ s : JSemantics,
        j_semantics_unref (some s) =
          (if s.ref_count - 1 = 0 then none
           else some { s with ref_count := s.ref_count - 1 })) ∧
    (∀ (t : Int) (N k : ℕ), k ≤ N →
        j_semantics_unref^[k] (j_semantics_ref^[N] (some (j_semantics_new t))) ≠ none) ∧
    (∀ (t : Int) (N : ℕ),
        j_semantics_unref^[N + 1] (j_semantics_ref^[N] (some (j_semantics_new t))) = none) := by
  have hnew : ∀ t : Int, (j_semantics_new t).ref_count = 1 := by
    intro t
    unfold j_semantics_new
    split_ifs <;> rfl
  refine ⟨fun s => rfl, ?_, ?_⟩
  · intro t N k hk
    obtain ⟨s', h1, h2⟩ := ref_iterate_count (j_semantics_new t) N
    rw [h1, unref_iterate_lt k s' (by rw [h2, hnew t]; omega)]
    exact Option.noConfusion
  · intro t N
    obtain ⟨s', h1, h2⟩ := ref_iterate_count (j_semantics_new t) N
    rw [h1, Function.iterate_succ_apply',
      unref_iterate_lt N s' (by rw [h2, hnew t]; omega)]
    have h3 : s'.ref_count - (N : Int) - 1 = 0 := by
      rw [h2, hnew t]
      ring
    simp [j_semantics_unref, h3]

/-- Witness for claim C7 at template Default, N = 2 shares, k = 1 early
release. -/
theorem claim_C7_release_balance_witness :
    (1 ≤ 2 ∧
      j_semantics_unref^[1]
          (j_semantics_ref^[2] (some (j_semantics_new J_SEMANTICS_TEMPLATE_DEFAULT))) ≠
        none) ∧
    j_semantics_unref^[3]
        (j_semantics_ref^[2] (some (j_semantics_new J_SEMANTICS_TEMPLATE_DEFAULT))) =
      none :=
  ⟨⟨by decide,
    claim_C7_release_balance.2.1 J_SEMANTICS_TEMPLATE_DEFAULT 2 1 (by decide)⟩,
   claim_C7_release_balance.2.2 J_SEMANTICS_TEMPLATE_DEFAULT 2⟩

/-- Counterexample to claim C8 as stated: calling new with the out-of-range
template tag 3 is not an abort — j_semantics_new returns normally — and the
returned descriptor carries exactly Default's values, which the claim says
never happens. -/
theorem claim_C8_counterexample :
    j_semantics_new 3 = j_semantics_new J_SEMANTICS_TEMPLATE_DEFAULT := by
  decide

/-- Claim C8 as amended: calling new with a template outside {Default,
Posix, Checkpoint} triggers the non-fatal g_warn_if_reached diagnostic (so
it is warned, not silent) but execution continues and the call returns a
descriptor carrying exactly Default's values. -/
theorem claim_C8_unknown_template_defaults :
    ∀ t : Int,
      t ≠ J_SEMANTICS_TEMPLATE_DEFAULT →
      t ≠ J_SEMANTICS_TEMPLATE_POSIX →
      t ≠ J_SEMANTICS_TEMPLATE_CHECKPOINT →
      j_semantics_new_warned t = true ∧
      j_semantics_new t = j_semantics_new J_SEMANTICS_TEMPLATE_DEFAULT := by
  intro t h0 h1 h2
  constructor
  · simp [j_semantics_new_warned, h0, h1, h2]
  · simp [j_semantics_new, h0, h1, h2]

/-- Witness for amended claim C8 at template tag 3. -/
theorem claim_C8_unknown_template_defaults_witness :
    ((3 : Int) ≠ J_SEMANTICS_TEMPLATE_DEFAULT ∧
     (3 : Int) ≠ J_SEMANTICS_TEMPLATE_POSIX ∧
     (3 : Int) ≠ J_SEMANTICS_TEMPLATE_CHECKPOINT) ∧
    j_semantics_new_warned 3 = true ∧
    j_semantics_new 3 = j_semantics_new J_SEMANTICS_TEMPLATE_DEFAULT :=
  ⟨⟨by decide, by decide, by decide⟩,
   claim_C8_unknown_template_defaults 3 (by decide) (by decide) (by decide)⟩

/-- Claim C2: constructing a store iterator performs exactly one operation
cache flush, as the very first collaborator call, strictly before the cursor
is opened; the trace is the same for every store and every collaborator
environment (the flush is unconditional, independent of the store's
configured semantics); and no cursor operation of the iterator ever emits a
flush, so the flush precedes every cursor operation. -/
theorem claim_C2_flush_before_cursor :
    ∀ (st : JStore) (env : IterEnv),
      (j_store_iterator_new (some st) env).2.count JEvent.opCacheFlush = 1 ∧
      (j_store_iterator_new (some st) env).2.head? = some JEvent.opCacheFlush ∧
      JEvent.cursorOpen ∈ (j_store_iterator_new (some st) env).2.tail ∧
      (∀ (st' : JStore) (env' : IterEnv),
          (j_store_iterator_new (some st') env').2 =
            (j_store_iterator_new (some st) env).2) ∧
      (∀ b : Bool,
          (j_store_iterator_next ((j_store_iterator_new (some st) env).1) b).2.count
              JEvent.opCacheFlush = 0) := by
  intro st env
  exact ⟨rfl, rfl, by simp [j_store_iterator_new], fun st' env' => rfl, fun b => rfl⟩

/-- Counterexample to claim C3 as stated: in an environment where connection
acquisition and cursor opening both fail (the pool returns NULL and
mongo_find returns NULL), j_store_iterator_new still returns an iterator —
not an error — and the store reference it acquired is not released, nor is
anything pushed back to the connection pool. -/
theorem claim_C3_counterexample :
    (j_store_iterator_new (some sampleStore)
        { pop_meta_result := none, mongo_find_result := none }).1 ≠ none ∧
    (j_store_iterator_new (some sampleStore)
        { pop_meta_result := none, mongo_find_result := none }).2.count
        JEvent.storeUnref = 0 ∧
    (j_store_iterator_new (some sampleStore)
        { pop_meta_result := none, mongo_find_result := none }).2.count
        (JEvent.connPoolPushMeta 0 none) = 0 := by
  decide

/-- Claim C3 as amended: j_store_iterator_new performs no error checking —
whatever results connection acquisition and cursor opening produce (NULL
included), it returns an iterator storing those results as is, propagates no
error, and releases none of the sub-resources acquired during construction
(the store reference is kept and nothing is pushed back to the pool until
free). -/
theorem claim_C3_construction_never_fails :
    ∀ (st : JStore) (env : IterEnv),
      (j_store_iterator_new (some st) env).1 =
        some { connection := env.pop_meta_result, store := st,
               cursor := env.mongo_find_result } ∧
      (j_store_iterator_new (some st) env).2.count JEvent.storeUnref = 0 ∧
      (∀ c : Option Nat,
          (j_store_iterator_new (some st) env).2.count
              (JEvent.connPoolPushMeta 0 c) = 0) := by
  intro st env
  exact ⟨rfl, rfl, fun c => rfl⟩

/-- Claim C9: for every iterator, free destroys the cursor, pushes the
connection handle back to pool slot 0 — the same slot construction popped it
from — and drops exactly one store reference, in that order. -/
theorem claim_C9_free_releases_in_order :
    ∀ it : JStoreIterator,
      j_store_iterator_free (some it) =
        [JEvent.cursorDestroy, JEvent.connPoolPushMeta 0 it.connection,
         JEvent.storeUnref] ∧
      (j_store_iterator_free (some it)).count JEvent.storeUnref = 1 ∧
      (∀ (st : JStore) (env : IterEnv),
          (j_store_iterator_new (some st) env).2.count
              (JEvent.connPoolPopMeta 0) = 1) := by
  intro it
  refine ⟨rfl, ?_, fun st env => rfl⟩
  simp [j_store_iterator_free]

/-- Claim C10: every public operation is NULL-guarded at entry — share(NULL)
returns NULL, iterator get(NULL) returns NULL, descriptor get(NULL, k)
returns -1, iterator next(NULL) returns FALSE having performed no cursor
call, and set/release/free on NULL leave state untouched — and descriptor
get with an unrecognized dimension key returns -1 (get never modifies the
descriptor: it is a pure read in this embedding, mirroring the read-only C
function). -/
theorem claim_C10_null_guards :
    j_semantics_ref none = none ∧
    j_store_iterator_get none = none ∧
    (∀ k : Int, j_semantics_get none k = -1) ∧
    (∀ b : Bool, j_store_iterator_next none b = (false, [])) ∧
    (∀ k v : Int, j_semantics_set none k v = none) ∧
    j_semantics_unref none = none ∧
    j_store_iterator_free none = [] ∧
    (∀ (s : JSemantics) (k : Int),
        k ≠ J_SEMANTICS_ATOMICITY → k ≠ J_SEMANTICS_CONCURRENCY →
        k ≠ J_SEMANTICS_CONSISTENCY → k ≠ J_SEMANTICS_PERSISTENCY →
        k ≠ J_SEMANTICS_SAFETY → k ≠ J_SEMANTICS_SECURITY →
        j_semantics_get (some s) k = -1) := by
  refine ⟨rfl, rfl, fun k => rfl, fun b => rfl, fun k v => rfl, rfl, rfl, ?_⟩
  intro s k h0 h1 h2 h3 h4 h5
  simp [j_semantics_get, h0, h1, h2, h3, h4, h5]

/-- Witness for claim C10 at the unrecognized dimension key 6. -/
theorem claim_C10_null_guards_witness :
    ((6 : Int) ≠ J_SEMANTICS_ATOMICITY ∧ (6 : Int) ≠ J_SEMANTICS_CONCURRENCY ∧
     (6 : Int) ≠ J_SEMANTICS_CONSISTENCY ∧ (6 : Int) ≠ J_SEMANTICS_PERSISTENCY ∧
     (6 : Int) ≠ J_SEMANTICS_SAFETY ∧ (6 : Int) ≠ J_SEMANTICS_SECURITY) ∧
    j_semantics_get (some (j_semantics_new J_SEMANTICS_TEMPLATE_DEFAULT)) 6 = -1 :=
  ⟨⟨by decide, by decide, by decide, by decide, by decide, by decide⟩,
   claim_C10_null_guards.2.2.2.2.2.2.2
     (j_semantics_new J_SEMANTICS_TEMPLATE_DEFAULT) 6
     (by decide) (by decide) (by decide) (by decide) (by decide) (by decide)⟩
